import Mathlib

/-!
Verification development for the multi-source Bluetooth device reconciliation
engine of this repository.

The definitions below are a shallow embedding of the Python sources:
  - `app/utils/bluetooth_utils.py` (normalization, ASCII-name decoding, merge)
  - `app/services/bluetooth_service.py` (identity heuristic, streaming fold,
    final deduplication pass)

Modelling conventions (value semantics for Python dicts):
  - A device record is a `Device` structure.  String-valued attributes use
    `""` for "key absent / None / empty string": every read the engine
    performs on these attributes (`get` truthiness tests, `== ""`
    comparisons, the generic backfill) treats those three Python states
    identically.
  - `rssi` is `Option Int` with `none` for Python `None`.  Every adapter in
    the repository sets the `rssi` key on every record it emits, so the
    dict key is always present and the `"rssi" in d` membership tests in
    `merge_device_info` are always true.
  - Dict-valued attributes (`manufacturer_data`, `service_data`) are
    insertion-ordered association lists; `[]` stands for absent / None /
    empty dict.  For these the generic backfill in the source fires only on
    absent / None (Python `{} == []` is false), but when the stronger side
    holds an empty dict the subsequent key-union loop copies exactly the
    entries the backfill would have copied, so collapsing `{}` with "absent"
    preserves all observable results.
  - `service_uuids`, `detection_sources`, `merged_from` are lists; `[]`
    coincides with Python `[]`, for which the backfill genuinely fires.
  - Python's `set`-based `service_uuids` union produces an unspecified
    order; the model uses first-seen order.  No operation of the engine is
    sensitive to the order of `service_uuids`.
  - `connected_info` / `services` / `characteristics` are opaque payloads:
    `Option Nat` tokens (`none` = absent / None / empty payload).
  - Python string operations are modelled on `String.data` lists of
    characters; `upper` / `lower` / `isdigit` / `isspace` / `isalpha` are
    taken at their ASCII meaning, which agrees with Python on the ASCII
    strings the engine manipulates.
  - The float threshold test `len(common)/max(...) >= 0.7` is modelled as
    `10 * common ≥ 7 * max`.  For the integer ranges that occur (both
    numbers bounded by the number of distinct characters of a string) the
    IEEE-double evaluation of the Python expression decides exactly the
    rational comparison, since no fraction with such a small denominator
    separates the double nearest to 0.7 from 7/10.
-/

/-! ## Character and list utilities mirroring Python string operations -/

/-- Python `c in ':-.'`: the separator characters stripped from addresses. -/
def isSeparator (c : Char) : Bool := c == ':' || c == '-' || c == '.'

/-- Python `s.upper()` (ASCII). -/
def upperChars (cs : List Char) : List Char := cs.map Char.toUpper

/-- Python `s.replace(':','').replace('-','').replace('.','')`. -/
def stripSeparators (cs : List Char) : List Char := cs.filter (fun c => !isSeparator c)

/-- Python `c in '0123456789ABCDEF'`. -/
def isHexDigitUp (c : Char) : Bool := c.isDigit || (decide ('A' ≤ c) && decide (c ≤ 'F'))

/-- Python `s.lower()` (ASCII) applied to the characters of a string. -/
def lowerChars (s : String) : List Char := s.data.map Char.toLower

/-- Python list/str prefix test used to build the substring test. -/
def isPrefixList : List Char → List Char → Bool
  | [], _ => true
  | _ :: _, [] => false
  | a :: as, b :: bs => a == b && isPrefixList as bs

/-- Python `p in s` on strings: contiguous-substring containment. -/
def isSubstring (p s : List Char) : Bool := s.tails.any (fun t => isPrefixList p t)

/-- Python `" " in s`. -/
def hasSpace (s : String) : Bool := s.data.any (fun c => c == ' ')

/-- Python `c.isdigit() or c.isspace()` (ASCII). -/
def isDigitOrSpace (c : Char) : Bool := c.isDigit || c.isWhitespace

/-- Python `s.split()`: split on whitespace runs, dropping empty tokens.
The second argument accumulates the current token in reverse. -/
def splitTokens : List Char → List Char → List (List Char)
  | [], cur => if cur.isEmpty then [] else [cur.reverse]
  | c :: rest, cur =>
    if c.isWhitespace then
      if cur.isEmpty then splitTokens rest []
      else cur.reverse :: splitTokens rest []
    else splitTokens rest (c :: cur)

/-- Python `int(token)` for a token of decimal digits. -/
def natOfDigits (cs : List Char) : Nat := cs.foldl (fun n c => 10 * n + (c.toNat - 48)) 0

/-! ## `app/utils/bluetooth_utils.py` -/

/-- `bluetooth_utils.normalize_mac_address`, helper: the cleaned character
list (`upper` then separator stripping). -/
def cleanedMac (s : String) : List Char := stripSeparators (upperChars s.data)

/-- The chunks `clean_mac[i:i+2]` for `i in range(0, 12, 2)`. -/
def chunksOf2 : List Char → List (List Char)
  | [] => []
  | [a] => [[a]]
  | a :: b :: rest => [a, b] :: chunksOf2 rest

/-- Python `':'.join(chunks)`. -/
def joinColon : List (List Char) → List Char
  | [] => []
  | [g] => g
  | g :: rest => g ++ ':' :: joinColon rest

/-- `bluetooth_utils.normalize_mac_address`: empty input gives `""`;
a cleaned string of length other than 12 is returned unchanged; otherwise
the cleaned string is re-joined with `:` every two characters. -/
def normalize_mac_address (mac_address : String) : String :=
  if mac_address = "" then ""
  else
    let clean := cleanedMac mac_address
    if clean.length ≠ 12 then mac_address
    else String.mk (joinColon (chunksOf2 clean))

/-- `bluetooth_utils.decode_ascii_name`: decode a space-separated sequence of
decimal byte values into printable ASCII, truncating at the first 0. -/
def decode_ascii_name (encoded_name : String) : String :=
  if encoded_name = "" then encoded_name
  else if !(encoded_name.data.all isDigitOrSpace) then encoded_name
  else
    let toks := (splitTokens encoded_name.data []).filter (fun t => t.all Char.isDigit)
    let values := (toks.map natOfDigits).takeWhile (fun v => v != 0)
    let decoded := (values.filter (fun v => decide (32 ≤ v ∧ v ≤ 126))).map Char.ofNat
    if 2 ≤ decoded.length ∧ decoded.any Char.isAlpha then String.mk decoded
    else encoded_name

/-! ## `BluetoothService` helpers: identifier heuristics -/

/-- `BluetoothService._is_mac_address`: at least 12 characters remain after
cleaning and the first 12 are upper-case hexadecimal digits. -/
def is_mac_address (address : String) : Bool :=
  if address = "" then false
  else
    let clean := cleanedMac address
    decide (12 ≤ clean.length) && (clean.take 12).all isHexDigitUp

/-- `BluetoothService._normalize_device_id`. -/
def normalize_device_id (address : String) : String :=
  if address = "" then ""
  else if is_mac_address address then normalize_mac_address address
  else address

/-- Number of distinct characters of `l` also occurring in `m`:
Python `len(set(l) & set(m))`. -/
def commonDistinctCount (l m : List Char) : Nat :=
  (l.dedup.filter (fun c => decide (c ∈ m))).length

/-- The last-resort scan of `_names_match`: some contiguous substring of
`n1` of length between 3 and `min` of the lengths occurs in `n2`. -/
def hasCommonSubstring3 (n1 n2 : List Char) : Bool :=
  (List.range' 3 (min n1.length n2.length - 2)).any fun len =>
    (List.range (n1.length - len + 1)).any fun i =>
      isSubstring ((n1.drop i).take len) n2

/-- `BluetoothService._names_match` with the default threshold 0.7:
case-insensitive equality, containment either way, distinct-character
overlap ratio at least 0.7, or a common contiguous substring of length 3+.
-/
def names_match (name1 name2 : String) : Bool :=
  if name1 = "" ∨ name2 = "" then false
  else
    -- the sequential `return True` statements of the source are a
    -- disjunction of their conditions
    decide (lowerChars name1 = lowerChars name2)
    || isSubstring (lowerChars name1) (lowerChars name2)
    || isSubstring (lowerChars name2) (lowerChars name1)
    || decide (7 * max (lowerChars name1).dedup.length (lowerChars name2).dedup.length
        ≤ 10 * commonDistinctCount (lowerChars name1) (lowerChars name2))
    || hasCommonSubstring3 (lowerChars name1) (lowerChars name2)

/-! ## The device record -/

/-- The device record flowing through the engine (see the modelling
conventions in the header). -/
structure Device where
  id : String
  source_id : String
  address : String
  name : String
  friendly_name : String
  rssi : Option Int
  manufacturer_data : List (Nat × List Nat)
  service_uuids : List String
  service_data : List (String × List Nat)
  device_type : String
  company_name : String
  detected_by : String
  detection_sources : List String
  merged_from : List String
  connected_info : Option Nat
  services : Option Nat
  characteristics : Option Nat
deriving DecidableEq, Repr

/-- A record with every attribute absent. -/
def emptyDevice : Device where
  id := ""
  source_id := ""
  address := ""
  name := ""
  friendly_name := ""
  rssi := none
  manufacturer_data := []
  service_uuids := []
  service_data := []
  device_type := ""
  company_name := ""
  detected_by := ""
  detection_sources := []
  merged_from := []
  connected_info := none
  services := none
  characteristics := none

/-- The fixed allow-list of significant service UUIDs of
`BluetoothService._device_matches`. -/
def significant_uuids : List String :=
  [ "0000180f-0000-1000-8000-00805f9b34fb"
  , "00001800-0000-1000-8000-00805f9b34fb"
  , "00001801-0000-1000-8000-00805f9b34fb"
  , "0000180a-0000-1000-8000-00805f9b34fb"
  , "0000180d-0000-1000-8000-00805f9b34fb"
  , "00001803-0000-1000-8000-00805f9b34fb"
  , "00001805-0000-1000-8000-00805f9b34fb"
  , "00001812-0000-1000-8000-00805f9b34fb"
  , "00001813-0000-1000-8000-00805f9b34fb"
  , "00001819-0000-1000-8000-00805f9b34fb" ]

/-- Cas 1 of `_device_matches`: normalized MAC addresses equal and
non-empty. -/
def dmAddrCase (device1 device2 : Device) : Bool :=
  is_mac_address device1.address && is_mac_address device2.address &&
    decide (normalize_device_id device1.address ≠ ""
      ∧ normalize_device_id device2.address ≠ ""
      ∧ normalize_device_id device1.address = normalize_device_id device2.address)

/-- Cas 2 of `_device_matches`: significant names that match. -/
def dmNameCase (device1 device2 : Device) : Bool :=
  decide (device1.name ≠ "" ∧ device2.name ≠ ""
      ∧ device1.name ≠ "Unknown" ∧ device2.name ≠ "Unknown")
    && names_match device1.name device2.name

/-- Cas 2.5 of `_device_matches`: decoded names that match, decoding having
changed at least one of them. -/
def dmDecodedNameCase (device1 device2 : Device) : Bool :=
  decide (device1.name ≠ "" ∧ device2.name ≠ "") &&
  decide (decode_ascii_name device1.name ≠ device1.name
    ∨ decode_ascii_name device2.name ≠ device2.name) &&
  decide (decode_ascii_name device1.name ≠ "" ∧ decode_ascii_name device2.name ≠ "") &&
  names_match (decode_ascii_name device1.name) (decode_ascii_name device2.name)

/-- Cas 3 of `_device_matches`: non-generic friendly names that match. -/
def dmFriendlyCase (device1 device2 : Device) : Bool :=
  decide (device1.friendly_name ≠ "" ∧ device2.friendly_name ≠ "") &&
  !isSubstring "Device".data device1.friendly_name.data &&
  !isSubstring "Device".data device2.friendly_name.data &&
  names_match device1.friendly_name device2.friendly_name

/-- Cas 4 of `_device_matches`: one record's `source_id` occurs in the
other's `merged_from` (both directions of the source). -/
def dmMergedFromCase (device1 device2 : Device) : Bool :=
  decide (device1.source_id ≠ "" ∧ device1.source_id ∈ device2.merged_from)
  || decide (device2.source_id ≠ "" ∧ device2.source_id ∈ device1.merged_from)

/-- Cas 5 of `_device_matches`: a shared significant service UUID. -/
def dmUuidCase (device1 device2 : Device) : Bool :=
  decide (device1.service_uuids ≠ [] ∧ device2.service_uuids ≠ []) &&
  significant_uuids.any (fun u =>
    decide (u ∈ device1.service_uuids ∧ u ∈ device2.service_uuids))

/-- Cas 6 of `_device_matches`: a shared manufacturer identifier. -/
def dmManufacturerCase (device1 device2 : Device) : Bool :=
  decide (device1.manufacturer_data ≠ [] ∧ device2.manufacturer_data ≠ []) &&
  decide (∃ k ∈ device1.manufacturer_data.map Prod.fst,
    k ∈ device2.manufacturer_data.map Prod.fst)

/-- `BluetoothService._device_matches`: the multi-criterion identity
heuristic.  The cases of the source are OR'd; Python's sequential
`return True` statements compute the same boolean. -/
def device_matches (device1 device2 : Device) : Bool :=
  dmAddrCase device1 device2
  || dmNameCase device1 device2
  || dmDecodedNameCase device1 device2
  || dmFriendlyCase device1 device2
  || dmMergedFromCase device1 device2
  || dmUuidCase device1 device2
  || dmManufacturerCase device1 device2

/-! ## `bluetooth_utils.merge_device_info` -/

/-- Generic backfill for string attributes: `key not in merged` / `None` /
`""` on the stronger side takes the weaker side's value. -/
def backfillStr (m w : String) : String := if m = "" then w else m

/-- Generic backfill for `rssi`: the source condition also fires on
`merged["rssi"] == 0`. -/
def backfillRssi (m w : Option Int) : Option Int :=
  if m = none ∨ m = some 0 then w else m

/-- Generic backfill for list-valued attributes (`== []` fires). -/
def backfillList {α : Type} (m w : List α) : List α := if m.isEmpty then w else m

/-- Generic backfill for opaque optional payloads. -/
def backfillOpt {α : Type} (m w : Option α) : Option α := if m.isNone then w else m

/-- The generic backfill loop
`for key, value in weaker_device.items(): ...` of `merge_device_info`,
applied attribute by attribute (each dict key is touched at most once, so
the iteration order is irrelevant). -/
def applyBackfill (strong weak : Device) : Device where
  id := backfillStr strong.id weak.id
  source_id := backfillStr strong.source_id weak.source_id
  address := backfillStr strong.address weak.address
  name := backfillStr strong.name weak.name
  friendly_name := backfillStr strong.friendly_name weak.friendly_name
  rssi := backfillRssi strong.rssi weak.rssi
  manufacturer_data := backfillList strong.manufacturer_data weak.manufacturer_data
  service_uuids := backfillList strong.service_uuids weak.service_uuids
  service_data := backfillList strong.service_data weak.service_data
  device_type := backfillStr strong.device_type weak.device_type
  company_name := backfillStr strong.company_name weak.company_name
  detected_by := backfillStr strong.detected_by weak.detected_by
  detection_sources := backfillList strong.detection_sources weak.detection_sources
  merged_from := backfillList strong.merged_from weak.merged_from
  connected_info := backfillOpt strong.connected_info weak.connected_info
  services := backfillOpt strong.services weak.services
  characteristics := backfillOpt strong.characteristics weak.characteristics

/-- Key-union of association lists, the stronger side's value winning on
collision: the `manufacturer_data` / `service_data` merge loops. -/
def unionAssoc {κ ν : Type} [DecidableEq κ] (m w : List (κ × ν)) : List (κ × ν) :=
  w.foldl (fun acc kv => if kv.1 ∈ acc.map Prod.fst then acc else acc ++ [kv]) m

/-- Append `x` unless it is absent (`""`) or already present: the
`detection_sources` / `merged_from` accumulation steps. -/
def appendIfPresent (l : List String) (x : String) : List String :=
  if x ≠ "" ∧ x ∉ l then l ++ [x] else l

/-- Python `device_type.split("+")` (keeping empty pieces); for a string
without `+` this is the one-element list, as in the `else: types.add(...)`
branch of the source. -/
def splitPlus : List Char → List Char → List String
  | [], cur => [String.mk cur.reverse]
  | c :: rest, cur =>
    if c = '+' then String.mk cur.reverse :: splitPlus rest []
    else splitPlus rest (c :: cur)

/-- The tag set of a `device_type` label. -/
def typeParts (s : String) : List String := splitPlus s.data []

/-- Python `"+".join(parts)`. -/
def joinPlus : List String → String
  | [] => ""
  | [s] => s
  | s :: rest => s ++ "+" ++ joinPlus rest

/-- Name steps of `merge_device_info`: decoded weaker name when decoding
changes it and the merged name is missing or a placeholder, then plain
weaker name over a missing/placeholder merged name. -/
def mergeNameField (name weakName : String) : String :=
  let n1 := if weakName ≠ "" ∧ hasSpace weakName
              ∧ decode_ascii_name weakName ≠ weakName
              ∧ (name = "" ∨ name = "Unknown")
    then decode_ascii_name weakName else name
  if weakName ≠ "" ∧ weakName ≠ "Unknown" ∧ (n1 = "" ∨ n1 = "Unknown")
    then weakName else n1

/-- Friendly-name steps of `merge_device_info`: decoded weaker friendly
name over a missing/generic merged one, then the longer of the two. -/
def mergeFriendlyField (fn weakFn : String) : String :=
  if weakFn = "" then fn
  else
    let f1 := if hasSpace weakFn ∧ decode_ascii_name weakFn ≠ weakFn
                ∧ (fn = "" ∨ isSubstring "Device".data fn.data)
      then decode_ascii_name weakFn else fn
    if f1 = "" ∨ f1.length < weakFn.length then weakFn else f1

/-- `merged_from` step of `merge_device_info`: both sides' `source_id`, the
weaker side's carried entries, and a seed from the two ids if still empty. -/
def mergeMergedFrom (mf : List String) (mSourceId wSourceId mId wId : String)
    (weakMf : List String) : List String :=
  let mf1 := appendIfPresent (appendIfPresent mf mSourceId) wSourceId
  let mf2 := weakMf.foldl (fun acc sid => if sid ∈ acc then acc else acc ++ [sid]) mf1
  if mf2 = [] then
    (let a := if mId ≠ "" then [mId] else []
     if wId ≠ "" ∧ wId ≠ mId then a ++ [wId] else a)
  else mf2

/-- Composite `device_type` step of `merge_device_info`: when both sides
carry distinct labels, the union of their `+`-separated tags, sorted. -/
def mergeDeviceType (dt weakDt : String) : String :=
  if dt ≠ "" ∧ weakDt ≠ "" ∧ dt ≠ weakDt then
    joinPlus (List.insertionSort (fun a b : String => a ≤ b)
      ((typeParts dt ++ typeParts weakDt).dedup))
  else dt

/-- The body of `merge_device_info` after the stronger/weaker decision:
copy the stronger record, backfill, then the attribute-specific steps in
source order. -/
def mergeRecords (strong weak : Device) : Device :=
  let m := applyBackfill strong weak
  { m with
    name := mergeNameField m.name weak.name
    friendly_name := mergeFriendlyField m.friendly_name weak.friendly_name
    company_name := if weak.company_name ≠ "" ∧ m.company_name = ""
      then weak.company_name else m.company_name
    manufacturer_data := unionAssoc m.manufacturer_data weak.manufacturer_data
    service_uuids := if weak.service_uuids ≠ []
      then (m.service_uuids ++ weak.service_uuids).dedup else m.service_uuids
    service_data := unionAssoc m.service_data weak.service_data
    detection_sources :=
      appendIfPresent (appendIfPresent m.detection_sources m.detected_by) weak.detected_by
    merged_from :=
      mergeMergedFrom m.merged_from m.source_id weak.source_id m.id weak.id weak.merged_from
    device_type := mergeDeviceType m.device_type weak.device_type
    connected_info := if weak.connected_info.isSome ∧ m.connected_info = none
      then weak.connected_info else m.connected_info
    services := if weak.services.isSome ∧ m.services = none
      then weak.services else m.services
    characteristics := if weak.characteristics.isSome ∧ m.characteristics = none
      then weak.characteristics else m.characteristics }

/-- The stronger/weaker decision of `merge_device_info`: the second record
wins exactly when its RSSI is non-`None` and the first record's RSSI is
`None` or farther from zero. -/
def rssiBeats (classic ble : Option Int) : Bool :=
  match classic with
  | none => false
  | some cv =>
    match ble with
    | none => true
    | some bv => decide (|cv| < |bv|)

/-- `bluetooth_utils.merge_device_info` on two non-empty records (the
records of this repository always carry the `rssi` key, see the header). -/
def merge_device_info (ble_device classic_device : Device)
    (prioritize_high_rssi : Bool) : Device :=
  if prioritize_high_rssi ∧ rssiBeats classic_device.rssi ble_device.rssi then
    mergeRecords classic_device ble_device
  else
    mergeRecords ble_device classic_device

/-- `bluetooth_utils.merge_device_info` including its leading guards:
`none` stands for a Python-falsy argument (`None` or the empty dict), for
which the other argument is returned untouched. -/
def merge_device_info_opt (ble_device classic_device : Option Device)
    (prioritize_high_rssi : Bool) : Option Device :=
  match ble_device, classic_device with
  | none, c => c
  | some b, none => some b
  | some b, some c => some (merge_device_info b c prioritize_high_rssi)

/-! ## `BluetoothService.scan_for_devices`: working set and streaming fold

The working set `all_devices` is a Python dict keyed by record id; it is
modelled as an insertion-ordered association list with unique keys.
Assignment to an existing key replaces the value in place (keeping the
position, as Python dicts do); assignment to a fresh key appends. -/

/-- Python `key in all_devices`. -/
def dictHasKey (m : List (String × Device)) (k : String) : Bool :=
  m.any (fun p => p.1 == k)

/-- Python `all_devices[key]` (first binding; keys are unique). -/
def dictGet (m : List (String × Device)) (k : String) : Option Device :=
  (m.find? (fun p => p.1 == k)).map Prod.snd

/-- Python `all_devices[key] = v`. -/
def dictSet (m : List (String × Device)) (k : String) (v : Device) : List (String × Device) :=
  if dictHasKey m k then m.map (fun p => if p.1 = k then (k, v) else p)
  else m ++ [(k, v)]

/-- One record of one adapter result list in the parallel branch of
`scan_for_devices` (lines 103-108): merge on an exact id hit when
deduplication is enabled, otherwise plain assignment (which replaces any
entry already stored under that id). -/
def streamStepParallel (deduplicate : Bool) (m : List (String × Device))
    (device : Device) : List (String × Device) :=
  match dictGet m device.id, deduplicate with
  | some existing, true =>
    dictSet m device.id (merge_device_info existing device true)
  | _, _ => dictSet m device.id device

/-- `BluetoothService._find_matching_device`: the first working-set entry
satisfying the identity heuristic against the new record. -/
def find_matching_device (device : Device) (m : List (String × Device)) : Option String :=
  (m.find? (fun p => device_matches p.2 device)).map Prod.fst

/-- One record of the Windows scanners' sequential branch of
`scan_for_devices` (lines 171-184 and 202-215): with deduplication, an
exact id hit merges, else the identity heuristic is searched and a hit
merges under the existing key, else the record is a new entry. -/
def streamStepWindowsSeq (deduplicate : Bool) (m : List (String × Device))
    (device : Device) : List (String × Device) :=
  if deduplicate then
    match dictGet m device.id with
    | some existing => dictSet m device.id (merge_device_info existing device true)
    | none =>
      match find_matching_device device m with
      | some matchId =>
        match dictGet m matchId with
        | some matched => dictSet m matchId (merge_device_info matched device true)
        | none => dictSet m device.id device
      | none => dictSet m device.id device
  else dictSet m device.id device

/-! ## `BluetoothService._advanced_deduplication` -/

/-- The sort key `x[1].get("rssi", -100) if ... is not None else -100`. -/
def dedupSortKey (d : Device) : Int := d.rssi.getD (-100)

/-- `sorted(devices.items(), key=..., reverse=True)`: Python's sort is
stable, and so is insertion sort with a total transitive relation. -/
def sortByRssiDesc (m : List (String × Device)) : List (String × Device) :=
  List.insertionSort (fun p q => dedupSortKey q.2 ≤ dedupSortKey p.2) m

/-- The inner loop of `_advanced_deduplication`: scan the whole (original,
unsorted) working set, absorbing every not-yet-processed entry that the
identity heuristic matches against the emitted record `base`, in
working-set iteration order.  Returns the accumulated merged value and the
grown processed set. -/
def dedupAbsorb (base : Device) :
    List (String × Device) → Device × List String → Device × List String
  | [], acc => acc
  | p :: rest, acc =>
    if p.1 ∈ acc.2 then dedupAbsorb base rest acc
    else if device_matches base p.2 then
      dedupAbsorb base rest (merge_device_info acc.1 p.2 true, acc.2 ++ [p.1])
    else dedupAbsorb base rest acc

/-- The outer loop of `_advanced_deduplication` over the RSSI-sorted
entries, carrying the processed-id set. -/
def dedupLoop (devices : List (String × Device)) :
    List (String × Device) → List String → List (String × Device)
  | [], _ => []
  | (id, d) :: rest, processed =>
    if id ∈ processed then dedupLoop devices rest processed
    else
      (id, (dedupAbsorb d devices (d, processed ++ [id])).1) ::
        dedupLoop devices rest (dedupAbsorb d devices (d, processed ++ [id])).2

/-- `BluetoothService._advanced_deduplication`. -/
def advanced_deduplication (devices : List (String × Device)) : List (String × Device) :=
  dedupLoop devices (sortByRssiDesc devices) []

/-! ## The parallel scan pipeline

`scan_for_devices` with `parallel_scans=True`: every adapter task fans out,
failures are tolerated (`asyncio.gather(..., return_exceptions=True)` plus
the per-task `except` blocks, both of which turn a failing adapter into
zero records), the surviving result lists are folded into the working set
in task order, the final pass runs when deduplication is enabled, and the
values of the working set are returned (the `BluetoothDevice(**device)`
conversion is the identity on the modelled attributes).  Records arrive
already stamped with `source_id` / `detected_by` by the adapter tasks. -/

/-- Whether an adapter outcome is a success (the list it returned may be
empty: "found nothing" is success). -/
def isOkResult (r : Except String (List Device)) : Bool :=
  match r with
  | .ok _ => true
  | .error _ => false

/-- Fold one adapter outcome into the working set: an exception contributes
zero records. -/
def foldAdapterResult (deduplicate : Bool) (m : List (String × Device))
    (result : Except String (List Device)) : List (String × Device) :=
  match result with
  | .error _ => m
  | .ok devices => devices.foldl (streamStepParallel deduplicate) m

/-- `scan_for_devices` (parallel branch) from the adapter outcomes to the
returned device list. -/
def scan_for_devices_parallel (results : List (Except String (List Device)))
    (deduplicate : Bool) : List Device :=
  let all := results.foldl (foldAdapterResult deduplicate) []
  let all := if deduplicate then advanced_deduplication all else all
  all.map Prod.snd

/-! ## Concrete records used by the scenario theorems -/

/-- Record seen by adapter `A` (chain-merge scenario). -/
def devA : Device :=
  { emptyDevice with
    id := "a"
    detected_by := "A"
    rssi := some (-50) }

/-- Record seen by adapter `B` (chain-merge scenario). -/
def devB : Device :=
  { emptyDevice with
    id := "b"
    detected_by := "B"
    rssi := some (-70) }

/-- Record seen by adapter `C` (chain-merge scenario). -/
def devC : Device :=
  { emptyDevice with
    id := "c"
    detected_by := "C"
    rssi := some (-40) }

/-- Record seen by adapter `D` (chain-merge scenario). -/
def devD : Device :=
  { emptyDevice with
    id := "d"
    detected_by := "D"
    rssi := some (-80) }

/-- Working-set entry: a named record without a usable address. -/
def dedupE1 : Device :=
  { emptyDevice with
    id := "1"
    source_id := "1"
    name := "alpha"
    rssi := some (-40)
    detected_by := "x" }

/-- Working-set entry: an addressed record without a name. -/
def dedupE2 : Device :=
  { emptyDevice with
    id := "2"
    source_id := "2"
    address := "AA:BB:CC:DD:EE:01"
    rssi := some (-60)
    detected_by := "y" }

/-- Working-set entry matching `dedupE1` by name and `dedupE2` by address. -/
def dedupE3 : Device :=
  { emptyDevice with
    id := "3"
    source_id := "3"
    name := "alpha"
    address := "AA:BB:CC:DD:EE:01"
    rssi := some (-50)
    detected_by := "z" }

/-- The working set fed to `advanced_deduplication` in the survivor
counterexample. -/
def dedupMap : List (String × Device) := [("1", dedupE1), ("2", dedupE2), ("3", dedupE3)]

/-- Scenario record: measured RSSI, canonical address spelling. -/
def scenC1 : Device :=
  { emptyDevice with
    id := "AA:BB:CC:DD:EE:FF"
    source_id := "AA:BB:CC:DD:EE:FF"
    address := "AA:BB:CC:DD:EE:FF"
    rssi := some (-60)
    detected_by := "ble_scanner" }

/-- Scenario record: same physical address in bare lower-case spelling,
no RSSI measurement. -/
def scenC2 : Device :=
  { emptyDevice with
    id := "aabbccddeeff"
    source_id := "aabbccddeeff"
    address := "aabbccddeeff"
    rssi := none
    detected_by := "windows_scanner" }

/-- Three same-address records sharing one id (the id convention of the BLE
and classic adapters is the address itself). -/
def sameId1 : Device :=
  { emptyDevice with
    id := "AA:BB:CC:DD:EE:FF"
    address := "AA:BB:CC:DD:EE:FF"
    detected_by := "p"
    rssi := some (-50) }

/-- Second same-id record. -/
def sameId2 : Device :=
  { emptyDevice with
    id := "AA:BB:CC:DD:EE:FF"
    address := "AA:BB:CC:DD:EE:FF"
    detected_by := "q"
    rssi := some (-60) }

/-- Third same-id record. -/
def sameId3 : Device :=
  { emptyDevice with
    id := "AA:BB:CC:DD:EE:FF"
    address := "AA:BB:CC:DD:EE:FF"
    detected_by := "r"
    rssi := some (-70) }

/-- Weak-signal record arriving first (output-order counterexample). -/
def weakFirst : Device :=
  { emptyDevice with
    id := "x"
    rssi := some (-80) }

/-- Strong-signal record arriving second (output-order counterexample). -/
def strongSecond : Device :=
  { emptyDevice with
    id := "y"
    rssi := some (-40) }

/-- Working-set entry whose address will be matched by a fresh-id record. -/
def streamU1 : Device :=
  { emptyDevice with
    id := "X"
    address := "AA:BB:CC:DD:EE:02"
    rssi := some (-50) }

/-- Incoming record with a fresh id but an address matching `streamU1`. -/
def streamU2 : Device :=
  { emptyDevice with
    id := "Y"
    address := "AA:BB:CC:DD:EE:02"
    rssi := some (-60) }

/-! # Lemmas and claim theorems -/

/-! ## Dictionary lemmas -/

/-- Lookup fails exactly when the key is absent. -/
theorem dictGet_eq_none_iff (m : List (String × Device)) (k : String) :
    dictGet m k = none ↔ dictHasKey m k = false := by
  simp [dictGet, dictHasKey, List.find?_eq_none, List.any_eq_true]

/-- `dictSet` on a fresh key appends the binding. -/
theorem dictSet_fresh (m : List (String × Device)) (k : String) (v : Device)
    (h : dictHasKey m k = false) : dictSet m k v = m ++ [(k, v)] := by
  simp [dictSet, h]

/-- A fresh-id record is appended unchanged by the parallel streaming step,
whatever the deduplication flag says. -/
theorem streamStepParallel_fresh (dedup : Bool) (m : List (String × Device)) (d : Device)
    (h : dictGet m d.id = none) : streamStepParallel dedup m d = m ++ [(d.id, d)] := by
  unfold streamStepParallel
  rw [h, dictSet_fresh m d.id d ((dictGet_eq_none_iff m d.id).mp h)]

/-! ## C10: the empty record is an identity of `merge_device_info` -/

/-- C10: when one argument of `merge_device_info` is Python-falsy (`None`
or the empty dict), the other argument is returned unchanged, with no
`detection_sources` or `merged_from` accumulation. -/
theorem c10_empty_merge_identity (d : Option Device) (p : Bool) :
    merge_device_info_opt none d p = d ∧ merge_device_info_opt d none p = d := by
  refine ⟨rfl, ?_⟩
  cases d <;> rfl

/-! ## C1: `detection_sources` accumulation across chained merges -/

/-- C1 (failing-input evaluation): merging the already-merged pairs
`devA+devB` and `devC+devD` loses `devB`'s `detected_by` value `"B"`,
because `merge_device_info` never unions the weaker side's carried
`detection_sources` list (unlike `merged_from`, which keeps all four ids).
-/
theorem c1_detection_sources_lost :
    (merge_device_info (merge_device_info devA devB true)
        (merge_device_info devC devD true) true).detection_sources = ["C", "D", "A"]
    ∧ (merge_device_info devA devB true).detection_sources = ["A", "B"]
    ∧ devB.detected_by = "B"
    ∧ "B" ∉ (merge_device_info (merge_device_info devA devB true)
        (merge_device_info devC devD true) true).detection_sources
    ∧ (merge_device_info (merge_device_info devA devB true)
        (merge_device_info devC devD true) true).merged_from = ["c", "d", "a", "b"] := by
  decide

/-! ## C2: survivors of the final pass -/

/-- C2 (counterexample): after `advanced_deduplication` of `dedupMap`, two
distinct entries survive and the identity heuristic still holds between
them — absorbing `dedupE3` into `dedupE1` donated the address
`AA:BB:CC:DD:EE:01`, which matches the surviving `dedupE2`. -/
theorem c2_surviving_pair_matches :
    (advanced_deduplication dedupMap).map Prod.fst = ["1", "2"]
    ∧ ¬ List.Pairwise (fun p q => device_matches p.2 q.2 = false)
        (advanced_deduplication dedupMap) := by
  decide

/-! ## C3: the streaming phase -/

/-- C3 (counterexample): in the parallel streaming phase with
deduplication enabled, a record whose id is fresh is inserted as a new
entry even though the working set holds an entry satisfying the identity
heuristic against it. -/
theorem c3_streaming_ignores_heuristic :
    device_matches streamU1 streamU2 = true
    ∧ streamU2.id ≠ "X"
    ∧ streamStepParallel true [("X", streamU1)] streamU2
        = [("X", streamU1), ("Y", streamU2)] := by
  decide

/-! ## C4: output ordering -/

/-- C4 (counterexample): with deduplication disabled the scan output keeps
working-set insertion order and is not sorted by descending RSSI. -/
theorem c4_output_not_sorted :
    (scan_for_devices_parallel [.ok [weakFirst, strongSecond]] false).map dedupSortKey
      = [-80, -40]
    ∧ ¬ List.Pairwise (fun a b : Device => dedupSortKey b ≤ dedupSortKey a)
        (scan_for_devices_parallel [.ok [weakFirst, strongSecond]] false) := by
  decide

/-! ## C7: deduplication disabled -/

/-- C7 (counterexample): three records carrying the same address from three
different adapters, all using the address as their id (the id convention of
the BLE and classic adapters), collapse to a single output record when
`deduplicate_devices=False`: the working set is keyed by id and plain
assignment overwrites. -/
theorem c7_same_id_records_collapse :
    sameId1.address = sameId2.address ∧ sameId2.address = sameId3.address
    ∧ sameId1.detected_by ≠ sameId2.detected_by
    ∧ sameId2.detected_by ≠ sameId3.detected_by
    ∧ (scan_for_devices_parallel [.ok [sameId1], .ok [sameId2], .ok [sameId3]] false).length
        = 1 := by
  decide

/-- C7 (amended): with `deduplicate_devices=False`, three same-address
records from three adapters stay three separate output records provided
their ids are pairwise distinct; no merge occurs and each record is
returned unchanged. -/
theorem c7_distinct_ids_no_merge (d1 d2 d3 : Device)
    (h12 : d1.id ≠ d2.id) (h13 : d1.id ≠ d3.id) (h23 : d2.id ≠ d3.id)
    (haddr : d1.address = d2.address ∧ d2.address = d3.address) :
    scan_for_devices_parallel [.ok [d1], .ok [d2], .ok [d3]] false = [d1, d2, d3] := by
  have g1 : dictGet [] d1.id = none := rfl
  have b12 : (d1.id == d2.id) = false := beq_eq_false_iff_ne.mpr h12
  have b13 : (d1.id == d3.id) = false := beq_eq_false_iff_ne.mpr h13
  have b23 : (d2.id == d3.id) = false := beq_eq_false_iff_ne.mpr h23
  have g2 : dictGet [(d1.id, d1)] d2.id = none := by
    simp [dictGet, List.find?, b12]
  have g3 : dictGet [(d1.id, d1), (d2.id, d2)] d3.id = none := by
    simp [dictGet, List.find?, b13, b23]
  unfold scan_for_devices_parallel
  simp only [List.foldl, foldAdapterResult,
    streamStepParallel_fresh false _ _ g1, List.nil_append, List.singleton_append,
    streamStepParallel_fresh false _ _ g2,
    streamStepParallel_fresh false _ _ g3]
  rfl

/-! ## C9: address normalization -/

/-- C9: `normalize_mac_address` returns `""` on empty input without error;
any input whose cleaned (separator-stripped, upper-cased) form is not
exactly 12 characters long is returned unchanged; and an address-like
input (per `_is_mac_address`) with exactly 12 cleaned characters — all of
which are then hexadecimal — is re-joined with `:` every two characters in
upper case. -/
theorem c9_normalize_spec (s : String) :
    normalize_mac_address "" = ""
    ∧ ((cleanedMac s).length ≠ 12 → normalize_mac_address s = s)
    ∧ (is_mac_address s = true → (cleanedMac s).length = 12 →
        normalize_mac_address s = String.mk (joinColon (chunksOf2 (cleanedMac s)))
        ∧ (cleanedMac s).all isHexDigitUp = true) := by
  refine ⟨rfl, ?_, ?_⟩
  · intro h
    by_cases hs : s = ""
    · subst hs; rfl
    · unfold normalize_mac_address
      simp [hs, h]
  · intro hmac hlen
    have hs : s ≠ "" := by
      intro h
      rw [h] at hmac
      simp [is_mac_address] at hmac
    constructor
    · unfold normalize_mac_address
      simp [hs, hlen]
    · unfold is_mac_address at hmac
      simp [hs] at hmac
      have ht : (cleanedMac s).take 12 = cleanedMac s :=
        List.take_of_length_le (by omega)
      rw [ht] at hmac
      exact List.all_eq_true.mpr hmac.2

/-- Witness for C9 at concrete inputs: a malformed address is passed
through unchanged, a separated lower-case address is normalized. -/
theorem c9_normalize_spec_witness :
    normalize_mac_address "not-a-mac" = "not-a-mac"
    ∧ normalize_mac_address "aa-bb-cc-dd-ee-ff"
        = String.mk (joinColon (chunksOf2 (cleanedMac "aa-bb-cc-dd-ee-ff")))
    ∧ (cleanedMac "aa-bb-cc-dd-ee-ff").all isHexDigitUp = true :=
  ⟨(c9_normalize_spec "not-a-mac").2.1 (by decide),
   (c9_normalize_spec "aa-bb-cc-dd-ee-ff").2.2 (by decide) (by decide)⟩

/-! ## C6: RSSI precedence in merges -/

/-- C6: `merge_device_info` picks as its base ("stronger" side) the record
whose RSSI is closer to zero; a `None` RSSI on one side defers precedence
to the other side; and the concrete scenario — two records covering the
same address, one with `rssi=-60` and one with `rssi=None`, scanned with
deduplication enabled — yields exactly one record with `rssi=-60`. -/
theorem c6_rssi_precedence :
    (∀ a b : Device, ∀ x y : Int, a.rssi = some x → b.rssi = some y →
        ((|y| < |x| → merge_device_info a b true = mergeRecords b a)
          ∧ (|x| ≤ |y| → merge_device_info a b true = mergeRecords a b)))
    ∧ (∀ a b : Device, ∀ y : Int, a.rssi = none → b.rssi = some y →
        merge_device_info a b true = mergeRecords b a)
    ∧ (∀ a b : Device, b.rssi = none → merge_device_info a b true = mergeRecords a b)
    ∧ (scan_for_devices_parallel [.ok [scenC1], .ok [scenC2]] true).map Device.rssi
        = [some (-60)]
    ∧ (scan_for_devices_parallel [.ok [scenC1], .ok [scenC2]] true).length = 1 := by
  refine ⟨?_, ?_, ?_, by decide, by decide⟩
  · intro a b x y ha hb
    constructor
    · intro hlt
      unfold merge_device_info rssiBeats
      rw [ha, hb]
      simp [hlt]
    · intro hle
      unfold merge_device_info rssiBeats
      rw [ha, hb]
      simp [not_lt.mpr hle]
  · intro a b y ha hb
    unfold merge_device_info rssiBeats
    rw [ha, hb]
    simp
  · intro a b hb
    unfold merge_device_info rssiBeats
    rw [hb]
    simp

/-- Witness for C6 at concrete records: every precedence clause
instantiated. -/
theorem c6_rssi_precedence_witness :
    merge_device_info { emptyDevice with rssi := some (-60) }
        { emptyDevice with rssi := some (-40) } true
      = mergeRecords { emptyDevice with rssi := some (-40) }
          { emptyDevice with rssi := some (-60) }
    ∧ merge_device_info { emptyDevice with rssi := some (-40) }
        { emptyDevice with rssi := some (-60) } true
      = mergeRecords { emptyDevice with rssi := some (-40) }
          { emptyDevice with rssi := some (-60) }
    ∧ merge_device_info { emptyDevice with rssi := none }
        { emptyDevice with rssi := some (-60) } true
      = mergeRecords { emptyDevice with rssi := some (-60) }
          { emptyDevice with rssi := none }
    ∧ merge_device_info { emptyDevice with rssi := some (-40) }
        { emptyDevice with rssi := none } true
      = mergeRecords { emptyDevice with rssi := some (-40) }
          { emptyDevice with rssi := none } :=
  ⟨(c6_rssi_precedence.1 _ _ (-60) (-40) rfl rfl).1 (by decide),
   (c6_rssi_precedence.1 _ _ (-40) (-60) rfl rfl).2 (by decide),
   c6_rssi_precedence.2.1 _ _ (-60) rfl rfl,
   c6_rssi_precedence.2.2.1 _ _ rfl⟩

/-! ## C5: partial adapter failure -/

/-- C5: failing adapter invocations contribute zero records — the scan
result only depends on the successful outcomes — and when every adapter
succeeds with an empty record list the scan returns the empty list, with
or without deduplication. -/
theorem c5_partial_failure (results : List (Except String (List Device))) (dedup : Bool) :
    scan_for_devices_parallel results dedup
      = scan_for_devices_parallel (results.filter isOkResult) dedup
    ∧ ((∀ r ∈ results, r = .ok ([] : List Device)) →
        scan_for_devices_parallel results dedup = []) := by
  constructor
  · have key : ∀ m, results.foldl (foldAdapterResult dedup) m
        = (results.filter isOkResult).foldl (foldAdapterResult dedup) m := by
      induction results with
      | nil => intro m; rfl
      | cons r rest ih =>
        intro m
        cases r with
        | error e => simpa [List.filter, isOkResult, foldAdapterResult] using ih m
        | ok l => simpa [List.filter, isOkResult] using ih (foldAdapterResult dedup m (.ok l))
    unfold scan_for_devices_parallel
    rw [key]
  · intro hall
    have key : ∀ (rs : List (Except String (List Device))) (m : List (String × Device)),
        (∀ r ∈ rs, r = .ok ([] : List Device)) →
        rs.foldl (foldAdapterResult dedup) m = m := by
      intro rs
      induction rs with
      | nil => intro m _; rfl
      | cons r rest ih =>
        intro m h
        have hr := h r (List.mem_cons_self r rest)
        subst hr
        exact ih m (fun q hq => h q (List.mem_cons_of_mem _ hq))
    unfold scan_for_devices_parallel
    rw [key results [] hall]
    cases dedup <;> rfl

/-- Witness for C5: one failing and one succeeding adapter; then two
adapters that both succeed with nothing found. -/
theorem c5_partial_failure_witness :
    scan_for_devices_parallel [.error "adapter timed out", .ok [emptyDevice]] true
      = scan_for_devices_parallel
          ([.error "adapter timed out", .ok [emptyDevice]].filter isOkResult) true
    ∧ scan_for_devices_parallel [.ok [], .ok []] true = [] :=
  ⟨(c5_partial_failure [.error "adapter timed out", .ok [emptyDevice]] true).1,
   (c5_partial_failure [.ok [], .ok []] true).2 (by
     intro r hr
     rcases List.mem_cons.mp hr with rfl | hr
     · rfl
     · rcases List.mem_cons.mp hr with rfl | hr
       · rfl
       · cases hr)⟩

/-! ## C3 (amended): what the streaming phase actually does -/

/-- C3 (amended): in the parallel streaming phase a record whose id is
already a key merges under that key when deduplication is enabled, and
plainly overwrites when it is disabled; a record with a fresh id is always
appended as a new entry, the identity heuristic never being consulted.
Only the sequential Windows-scanner branch consults
`_find_matching_device`: there, with deduplication enabled and no exact id
hit, a heuristic hit merges the record under the existing key. -/
theorem c3_streaming_amended :
    (∀ (dedup : Bool) (m : List (String × Device)) (d : Device), dictGet m d.id = none →
        streamStepParallel dedup m d = m ++ [(d.id, d)])
    ∧ (∀ (m : List (String × Device)) (d e : Device), dictGet m d.id = some e →
        streamStepParallel true m d = dictSet m d.id (merge_device_info e d true))
    ∧ (∀ (m : List (String × Device)) (d e : Device), dictGet m d.id = some e →
        streamStepParallel false m d = dictSet m d.id d)
    ∧ (∀ (m : List (String × Device)) (d e : Device) (k : String),
        dictGet m d.id = none → find_matching_device d m = some k → dictGet m k = some e →
        streamStepWindowsSeq true m d = dictSet m k (merge_device_info e d true)) := by
  refine ⟨fun dedup m d h => streamStepParallel_fresh dedup m d h, ?_, ?_, ?_⟩
  · intro m d e h
    unfold streamStepParallel
    rw [h]
  · intro m d e h
    unfold streamStepParallel
    rw [h]
  · intro m d e k hnone hfind hget
    unfold streamStepWindowsSeq
    rw [hnone, hfind]
    simp [hget]

/-- Witness for C3 (amended): each streaming behaviour at a concrete
working set, including the Windows sequential heuristic merge. -/
theorem c3_streaming_amended_witness :
    streamStepParallel true [("X", streamU1)] streamU2 = [("X", streamU1), ("Y", streamU2)]
    ∧ streamStepParallel true [("Y", streamU2)] streamU2
        = dictSet [("Y", streamU2)] "Y" (merge_device_info streamU2 streamU2 true)
    ∧ streamStepParallel false [("Y", streamU2)] streamU2 = dictSet [("Y", streamU2)] "Y" streamU2
    ∧ streamStepWindowsSeq true [("X", streamU1)] streamU2
        = dictSet [("X", streamU1)] "X" (merge_device_info streamU1 streamU2 true) :=
  ⟨by simpa using c3_streaming_amended.1 true [("X", streamU1)] streamU2 (by decide),
   c3_streaming_amended.2.1 [("Y", streamU2)] streamU2 streamU2 (by decide),
   c3_streaming_amended.2.2.1 [("Y", streamU2)] streamU2 streamU2 (by decide),
   c3_streaming_amended.2.2.2 [("X", streamU1)] streamU2 streamU1 "X"
     (by decide) (by decide) (by decide)⟩

/-! ## C8: symmetry of the identity heuristic -/

theorem isPrefixList_iff (p t : List Char) : isPrefixList p t = true ↔ p <+: t := by
  induction p generalizing t with
  | nil => simp [isPrefixList]
  | cons a as ih =>
    cases t with
    | nil => simp [isPrefixList]
    | cons b bs =>
      rw [isPrefixList]
      simp only [Bool.and_eq_true, beq_iff_eq, ih bs, List.cons_prefix_cons]

theorem isSubstring_iff (p s : List Char) : isSubstring p s = true ↔ p <:+: s := by
  rw [isSubstring, List.any_eq_true, List.infix_iff_prefix_suffix]
  constructor
  · rintro ⟨t, ht, hp⟩
    exact ⟨t, (isPrefixList_iff p t).mp hp, (List.mem_tails t s).mp ht⟩
  · rintro ⟨t, hp, ht⟩
    exact ⟨t, (List.mem_tails t s).mpr ht, (isPrefixList_iff p t).mpr hp⟩

theorem commonDistinctCount_comm (l m : List Char) :
    commonDistinctCount l m = commonDistinctCount m l := by
  have key : ∀ a b : List Char, commonDistinctCount a b = (a.toFinset ∩ b.toFinset).card := by
    intro a b
    have hn : (a.dedup.filter (fun c => decide (c ∈ b))).Nodup :=
      (List.nodup_dedup a).filter _
    rw [commonDistinctCount, ← List.toFinset_card_of_nodup hn]
    congr 1
    ext c
    simp [List.mem_dedup]
  rw [key, key, Finset.inter_comm]

theorem hasCommonSubstring3_iff (n1 n2 : List Char) :
    hasCommonSubstring3 n1 n2 = true ↔
      ∃ t : List Char, t.length = 3 ∧ t <:+: n1 ∧ t <:+: n2 := by
  rw [hasCommonSubstring3]
  simp only [List.any_eq_true, List.mem_range'_1, List.mem_range]
  constructor
  · rintro ⟨len, ⟨h3len, hlt⟩, i, hi, hsub⟩
    have hm1 := min_le_left n1.length n2.length
    have hm2 := min_le_right n1.length n2.length
    have hlen1 : len ≤ n1.length := by omega
    have hilen : i + len ≤ n1.length := by omega
    have hslen : ((n1.drop i).take len).length = len := by
      simp only [List.length_take, List.length_drop]
      omega
    have hs1 : (n1.drop i).take len <:+: n1 :=
      List.infix_iff_prefix_suffix.mpr
        ⟨n1.drop i, List.take_prefix len (n1.drop i), List.drop_suffix i n1⟩
    have hs2 : (n1.drop i).take len <:+: n2 := (isSubstring_iff _ _).mp hsub
    refine ⟨((n1.drop i).take len).take 3, ?_, ?_, ?_⟩
    · simp only [List.length_take, hslen]
      omega
    · exact ((List.take_prefix 3 _).isInfix).trans hs1
    · exact ((List.take_prefix 3 _).isInfix).trans hs2
  · rintro ⟨t, ht3, h1, h2⟩
    have hl1 : 3 ≤ n1.length := ht3 ▸ h1.length_le
    have hl2 : 3 ≤ n2.length := ht3 ▸ h2.length_le
    obtain ⟨u, v, huv⟩ := h1
    refine ⟨3, ⟨le_refl 3, ?_⟩, u.length, ?_, ?_⟩
    · have : 3 ≤ min n1.length n2.length := le_min hl1 hl2
      omega
    · have : n1.length = u.length + t.length + v.length := by
        rw [← huv]
        simp
        omega
      omega
    · have hdrop : (n1.drop u.length).take 3 = t := by
        rw [← huv, List.append_assoc, List.drop_left, ← ht3, List.take_left]
      rw [hdrop]
      exact (isSubstring_iff _ _).mpr h2

theorem hasCommonSubstring3_comm (n1 n2 : List Char) :
    hasCommonSubstring3 n1 n2 = hasCommonSubstring3 n2 n1 := by
  rw [Bool.eq_iff_iff, hasCommonSubstring3_iff, hasCommonSubstring3_iff]
  constructor
  · rintro ⟨t, h3, h1, h2⟩
    exact ⟨t, h3, h2, h1⟩
  · rintro ⟨t, h3, h1, h2⟩
    exact ⟨t, h3, h2, h1⟩

theorem names_match_comm (a b : String) : names_match a b = names_match b a := by
  unfold names_match
  by_cases h : a = "" ∨ b = ""
  · rw [if_pos h, if_pos (Or.symm h)]
  · have h' : ¬(b = "" ∨ a = "") := fun hc => h (Or.symm hc)
    rw [if_neg h, if_neg h']
    have e1 : decide (lowerChars a = lowerChars b) = decide (lowerChars b = lowerChars a) := by
      rw [decide_eq_decide]
      exact eq_comm
    have e4 : decide (7 * max (lowerChars a).dedup.length (lowerChars b).dedup.length
          ≤ 10 * commonDistinctCount (lowerChars a) (lowerChars b))
        = decide (7 * max (lowerChars b).dedup.length (lowerChars a).dedup.length
          ≤ 10 * commonDistinctCount (lowerChars b) (lowerChars a)) := by
      rw [max_comm, commonDistinctCount_comm]
    have e5 := hasCommonSubstring3_comm (lowerChars a) (lowerChars b)
    rw [e1, e4, e5]
    cases isSubstring (lowerChars a) (lowerChars b) <;>
      cases isSubstring (lowerChars b) (lowerChars a) <;> simp

theorem dmAddrCase_comm (d1 d2 : Device) : dmAddrCase d1 d2 = dmAddrCase d2 d1 := by
  unfold dmAddrCase
  rw [Bool.eq_iff_iff]
  simp only [Bool.and_eq_true, decide_eq_true_eq]
  constructor
  · rintro ⟨⟨h1, h2⟩, h3, h4, h5⟩
    exact ⟨⟨h2, h1⟩, h4, h3, h5.symm⟩
  · rintro ⟨⟨h1, h2⟩, h3, h4, h5⟩
    exact ⟨⟨h2, h1⟩, h4, h3, h5.symm⟩

theorem dmNameCase_comm (d1 d2 : Device) : dmNameCase d1 d2 = dmNameCase d2 d1 := by
  unfold dmNameCase
  rw [names_match_comm, Bool.eq_iff_iff]
  simp only [Bool.and_eq_true, decide_eq_true_eq]
  constructor
  · rintro ⟨⟨h1, h2, h3, h4⟩, h5⟩
    exact ⟨⟨h2, h1, h4, h3⟩, h5⟩
  · rintro ⟨⟨h1, h2, h3, h4⟩, h5⟩
    exact ⟨⟨h2, h1, h4, h3⟩, h5⟩

theorem dmDecodedNameCase_comm (d1 d2 : Device) :
    dmDecodedNameCase d1 d2 = dmDecodedNameCase d2 d1 := by
  unfold dmDecodedNameCase
  rw [names_match_comm, Bool.eq_iff_iff]
  simp only [Bool.and_eq_true, decide_eq_true_eq]
  constructor
  · rintro ⟨⟨⟨h1, h2⟩, h3⟩, h4⟩
    exact ⟨⟨⟨⟨h1.2, h1.1⟩, h2.symm⟩, ⟨h3.2, h3.1⟩⟩, h4⟩
  · rintro ⟨⟨⟨h1, h2⟩, h3⟩, h4⟩
    exact ⟨⟨⟨⟨h1.2, h1.1⟩, h2.symm⟩, ⟨h3.2, h3.1⟩⟩, h4⟩

theorem dmFriendlyCase_comm (d1 d2 : Device) :
    dmFriendlyCase d1 d2 = dmFriendlyCase d2 d1 := by
  unfold dmFriendlyCase
  rw [names_match_comm, Bool.eq_iff_iff]
  simp only [Bool.and_eq_true, decide_eq_true_eq]
  constructor
  · rintro ⟨⟨⟨h1, h2⟩, h3⟩, h4⟩
    exact ⟨⟨⟨⟨h1.2, h1.1⟩, h3⟩, h2⟩, h4⟩
  · rintro ⟨⟨⟨h1, h2⟩, h3⟩, h4⟩
    exact ⟨⟨⟨⟨h1.2, h1.1⟩, h3⟩, h2⟩, h4⟩

theorem dmMergedFromCase_comm (d1 d2 : Device) :
    dmMergedFromCase d1 d2 = dmMergedFromCase d2 d1 := by
  unfold dmMergedFromCase
  exact Bool.or_comm _ _

theorem dmUuidCase_comm (d1 d2 : Device) : dmUuidCase d1 d2 = dmUuidCase d2 d1 := by
  unfold dmUuidCase
  have e : (fun u => decide (u ∈ d1.service_uuids ∧ u ∈ d2.service_uuids))
      = (fun u => decide (u ∈ d2.service_uuids ∧ u ∈ d1.service_uuids)) := by
    funext u
    rw [decide_eq_decide]
    exact and_comm
  rw [e, Bool.eq_iff_iff]
  simp only [Bool.and_eq_true, decide_eq_true_eq]
  constructor
  · rintro ⟨⟨h1, h2⟩, h3⟩
    exact ⟨⟨h2, h1⟩, h3⟩
  · rintro ⟨⟨h1, h2⟩, h3⟩
    exact ⟨⟨h2, h1⟩, h3⟩

theorem dmManufacturerCase_comm (d1 d2 : Device) :
    dmManufacturerCase d1 d2 = dmManufacturerCase d2 d1 := by
  unfold dmManufacturerCase
  rw [Bool.eq_iff_iff]
  simp only [Bool.and_eq_true, decide_eq_true_eq]
  constructor
  · rintro ⟨⟨h1, h2⟩, k, hk1, hk2⟩
    exact ⟨⟨h2, h1⟩, k, hk2, hk1⟩
  · rintro ⟨⟨h1, h2⟩, k, hk1, hk2⟩
    exact ⟨⟨h2, h1⟩, k, hk2, hk1⟩

theorem device_matches_comm (d1 d2 : Device) :
    device_matches d1 d2 = device_matches d2 d1 := by
  unfold device_matches
  rw [dmAddrCase_comm, dmNameCase_comm, dmDecodedNameCase_comm, dmFriendlyCase_comm,
    dmMergedFromCase_comm, dmUuidCase_comm, dmManufacturerCase_comm]

/-- C8: the identity heuristic is symmetric:
`devicesMatch(a,b) == devicesMatch(b,a)` for all record pairs. -/
theorem c8_device_matches_symmetric (d1 d2 : Device) :
    device_matches d1 d2 = device_matches d2 d1 :=
  device_matches_comm d1 d2

/-! ## The final pass: survivor invariants (C2 and C4, amended) -/

/-- In a working set with unique keys, a key determines its record. -/
theorem keyVal_unique {devices : List (String × Device)}
    (h : (devices.map Prod.fst).Nodup) {k : String} {a b : Device}
    (ha : (k, a) ∈ devices) (hb : (k, b) ∈ devices) : a = b := by
  induction devices with
  | nil => cases ha
  | cons p rest ih =>
    obtain ⟨p1, p2⟩ := p
    simp only [List.map_cons, List.nodup_cons] at h
    rcases List.mem_cons.mp ha with heqa | ha2
    · rcases List.mem_cons.mp hb with heqb | hb2
      · rw [Prod.mk.injEq] at heqa heqb
        rw [heqa.2, heqb.2]
      · exfalso
        apply h.1
        rw [Prod.mk.injEq] at heqa
        rw [← heqa.1]
        exact List.mem_map.mpr ⟨(k, b), hb2, rfl⟩
    · rcases List.mem_cons.mp hb with heqb | hb2
      · exfalso
        apply h.1
        rw [Prod.mk.injEq] at heqb
        rw [← heqb.1]
        exact List.mem_map.mpr ⟨(k, a), ha2, rfl⟩
      · exact ih h.2 ha2 hb2

/-- The inner absorption loop only ever grows the processed set. -/
theorem dedupAbsorb_mono (base : Device) (devices : List (String × Device))
    (acc : Device × List String) {x : String} (hx : x ∈ acc.2) :
    x ∈ (dedupAbsorb base devices acc).2 := by
  induction devices generalizing acc with
  | nil => exact hx
  | cons p rest ih =>
    rw [dedupAbsorb]
    by_cases h1 : p.1 ∈ acc.2
    · rw [if_pos h1]
      exact ih acc hx
    · rw [if_neg h1]
      by_cases h2 : device_matches base p.2 = true
      · rw [if_pos h2]
        exact ih _ (List.mem_append_left _ hx)
      · rw [if_neg h2]
        exact ih acc hx

/-- The inner absorption loop visits the whole working set: an entry left
unprocessed after it did not match the emitted record. -/
theorem dedupAbsorb_complete (base : Device) (devices : List (String × Device))
    (acc : Device × List String) {p : String × Device} (hp : p ∈ devices)
    (hnp : p.1 ∉ (dedupAbsorb base devices acc).2) :
    device_matches base p.2 = false := by
  induction devices generalizing acc with
  | nil => cases hp
  | cons q rest ih =>
    rw [dedupAbsorb] at hnp
    by_cases h1 : q.1 ∈ acc.2
    · rw [if_pos h1] at hnp
      rcases List.mem_cons.mp hp with rfl | hp2
      · exact absurd (dedupAbsorb_mono base rest acc h1) hnp
      · exact ih acc hp2 hnp
    · rw [if_neg h1] at hnp
      by_cases h2 : device_matches base q.2 = true
      · rw [if_pos h2] at hnp
        rcases List.mem_cons.mp hp with rfl | hp2
        · exact absurd
            (dedupAbsorb_mono base rest _ (List.mem_append_right _ (List.mem_singleton_self _)))
            hnp
        · exact ih _ hp2 hnp
      · rw [if_neg h2] at hnp
        rcases List.mem_cons.mp hp with rfl | hp2
        · exact Bool.eq_false_iff.mpr h2
        · exact ih acc hp2 hnp

/-- An entry emitted by the outer loop was not processed when the loop
started. -/
theorem dedupLoop_emitted_not_processed (devices : List (String × Device)) :
    ∀ (sorted : List (String × Device)) (processed : List String) (k : String) (v : Device),
    (k, v) ∈ dedupLoop devices sorted processed → k ∉ processed := by
  intro sorted
  induction sorted with
  | nil =>
    intro processed k v h
    cases h
  | cons p rest ih =>
    intro processed k v h hkp
    obtain ⟨id, d⟩ := p
    rw [dedupLoop] at h
    by_cases hid : id ∈ processed
    · rw [if_pos hid] at h
      exact ih processed k v h hkp
    · rw [if_neg hid] at h
      rcases List.mem_cons.mp h with heq | h2
      · rw [Prod.mk.injEq] at heq
        exact hid (heq.1 ▸ hkp)
      · exact ih _ k v h2
          (dedupAbsorb_mono d devices (d, processed ++ [id]) (List.mem_append_left _ hkp))

/-- The emitted keys form a sublist of the sorted keys: survivors appear in
sorted-processing order. -/
theorem dedupLoop_keys_sublist (devices : List (String × Device)) :
    ∀ (sorted : List (String × Device)) (processed : List String),
    ((dedupLoop devices sorted processed).map Prod.fst).Sublist (sorted.map Prod.fst) := by
  intro sorted
  induction sorted with
  | nil =>
    intro processed
    exact List.Sublist.refl []
  | cons p rest ih =>
    intro processed
    obtain ⟨id, d⟩ := p
    rw [dedupLoop]
    by_cases hid : id ∈ processed
    · rw [if_pos hid]
      exact (ih processed).trans (List.sublist_cons_self _ _)
    · rw [if_neg hid]
      simp only [List.map_cons]
      exact List.Sublist.cons₂ _ (ih _)

/-- Any two entries emitted by the outer loop fail the identity heuristic
when it is evaluated on the records the input working set stored under
their keys. -/
theorem dedupLoop_pairwise (devices : List (String × Device))
    (hnodup : (devices.map Prod.fst).Nodup) :
    ∀ (sorted : List (String × Device)) (processed : List String),
    (∀ p ∈ sorted, p ∈ devices) →
    List.Pairwise (fun p q : String × Device => ∀ dp dq : Device,
      (p.1, dp) ∈ devices → (q.1, dq) ∈ devices →
      device_matches dp dq = false ∧ device_matches dq dp = false)
      (dedupLoop devices sorted processed) := by
  intro sorted
  induction sorted with
  | nil =>
    intro processed _
    exact List.Pairwise.nil
  | cons p rest ih =>
    intro processed hsub
    obtain ⟨id, d⟩ := p
    rw [dedupLoop]
    by_cases hid : id ∈ processed
    · rw [if_pos hid]
      exact ih processed (fun q hq => hsub q (List.mem_cons_of_mem _ hq))
    · rw [if_neg hid]
      refine List.Pairwise.cons ?_ (ih _ (fun q hq => hsub q (List.mem_cons_of_mem _ hq)))
      intro q hq dp dq hdp hdq
      have hdev : (id, d) ∈ devices := hsub (id, d) (List.mem_cons_self _ _)
      have hdpd : dp = d := keyVal_unique hnodup hdp hdev
      subst hdpd
      have hknp : q.1 ∉ (dedupAbsorb dp devices (dp, processed ++ [id])).2 :=
        dedupLoop_emitted_not_processed devices rest _ q.1 q.2 hq
      have h1 : device_matches dp dq = false :=
        dedupAbsorb_complete dp devices (dp, processed ++ [id]) (p := (q.1, dq)) hdq hknp
      refine ⟨h1, ?_⟩
      rw [device_matches_comm]
      exact h1

/-- C2 (amended): after `advanced_deduplication`, for every pair of
distinct surviving keys the identity heuristic returns false on the
pre-pass working-set records stored under those keys (in both directions).
The heuristic may still hold between the merged survivor values, as the
counterexample shows. -/
theorem c2_no_match_between_survivor_origins
    (devices : List (String × Device)) (hnodup : (devices.map Prod.fst).Nodup)
    (i j : String) (vi vj di dj : Device)
    (hi : (i, vi) ∈ advanced_deduplication devices)
    (hj : (j, vj) ∈ advanced_deduplication devices)
    (hne : i ≠ j)
    (hdi : (i, di) ∈ devices) (hdj : (j, dj) ∈ devices) :
    device_matches di dj = false ∧ device_matches dj di = false := by
  have hsub : ∀ p ∈ sortByRssiDesc devices, p ∈ devices := fun p hp =>
    (List.perm_insertionSort _ devices).subset hp
  have hpw := dedupLoop_pairwise devices hnodup (sortByRssiDesc devices) [] hsub
  have hsym : Symmetric (fun p q : String × Device => ∀ dp dq : Device,
      (p.1, dp) ∈ devices → (q.1, dq) ∈ devices →
      device_matches dp dq = false ∧ device_matches dq dp = false) := by
    intro p q h dp dq hdp hdq
    exact ⟨(h dq dp hdq hdp).2, (h dq dp hdq hdp).1⟩
  have hne2 : ((i, vi) : String × Device) ≠ (j, vj) := by
    intro hcontra
    exact hne (congrArg Prod.fst hcontra)
  exact hpw.forall hsym hi hj hne2 di dj hdi hdj

/-- C4 (amended): with deduplication enabled the final pass emits
survivors in descending order of the pre-merge working-set records' RSSI
sort keys (a missing RSSI counting as -100): whenever key `i` precedes key
`j` in the emitted sequence, the input record under `i` has the larger (or
equal) sort key.  No further output sort exists. -/
theorem c4_dedup_emission_order
    (devices : List (String × Device)) (hnodup : (devices.map Prod.fst).Nodup)
    (i j : String) (di dj : Device)
    (horder : List.Sublist [i, j] ((advanced_deduplication devices).map Prod.fst))
    (hdi : (i, di) ∈ devices) (hdj : (j, dj) ∈ devices) :
    dedupSortKey dj ≤ dedupSortKey di := by
  have hsl := dedupLoop_keys_sublist devices (sortByRssiDesc devices) []
  have h2 : List.Sublist [i, j] ((sortByRssiDesc devices).map Prod.fst) :=
    horder.trans hsl
  obtain ⟨l2, hl2, hmap⟩ := List.sublist_map_iff.mp h2
  cases l2 with
  | nil => simp at hmap
  | cons p t =>
    cases t with
    | nil => simp at hmap
    | cons q t2 =>
      cases t2 with
      | cons r t3 => simp at hmap
      | nil =>
        simp only [List.map_cons, List.map_nil, List.cons.injEq, and_true] at hmap
        obtain ⟨hip, hjq⟩ := hmap
        have hsorted : List.Pairwise
            (fun x y : String × Device => dedupSortKey y.2 ≤ dedupSortKey x.2)
            (sortByRssiDesc devices) := by
          haveI : IsTotal (String × Device)
              (fun x y : String × Device => dedupSortKey y.2 ≤ dedupSortKey x.2) :=
            ⟨fun a b => le_total (dedupSortKey b.2) (dedupSortKey a.2)⟩
          haveI : IsTrans (String × Device)
              (fun x y : String × Device => dedupSortKey y.2 ≤ dedupSortKey x.2) :=
            ⟨fun a b c hab hbc => le_trans hbc hab⟩
          exact List.sorted_insertionSort _ _
        have hpair := hsorted.sublist hl2
        have hrpq : dedupSortKey q.2 ≤ dedupSortKey p.2 :=
          (List.pairwise_cons.mp hpair).1 q (List.mem_cons_self _ _)
        have hpmem : p ∈ devices :=
          (List.perm_insertionSort _ devices).subset (hl2.subset (List.mem_cons_self _ _))
        have hqmem : q ∈ devices :=
          (List.perm_insertionSort _ devices).subset
            (hl2.subset (List.mem_cons_of_mem _ (List.mem_cons_self _ _)))
        have hpdev : (i, p.2) ∈ devices := by
          rw [hip]
          exact hpmem
        have hqdev : (j, q.2) ∈ devices := by
          rw [hjq]
          exact hqmem
        have hpdi : p.2 = di := keyVal_unique hnodup hpdev hdi
        have hqdj : q.2 = dj := keyVal_unique hnodup hqdev hdj
        rw [← hpdi, ← hqdj]
        exact hrpq

/-- Witness for C2 (amended) at a two-survivor working set. -/
theorem c2_no_match_between_survivor_origins_witness :
    device_matches { emptyDevice with id := "w1", address := "AA:BB:CC:DD:EE:10" }
        { emptyDevice with id := "w2", address := "BB:BB:CC:DD:EE:20" } = false
    ∧ device_matches { emptyDevice with id := "w2", address := "BB:BB:CC:DD:EE:20" }
        { emptyDevice with id := "w1", address := "AA:BB:CC:DD:EE:10" } = false :=
  c2_no_match_between_survivor_origins
    [("w1", { emptyDevice with id := "w1", address := "AA:BB:CC:DD:EE:10" }),
     ("w2", { emptyDevice with id := "w2", address := "BB:BB:CC:DD:EE:20" })]
    (by decide) "w1" "w2"
    { emptyDevice with id := "w1", address := "AA:BB:CC:DD:EE:10" }
    { emptyDevice with id := "w2", address := "BB:BB:CC:DD:EE:20" }
    { emptyDevice with id := "w1", address := "AA:BB:CC:DD:EE:10" }
    { emptyDevice with id := "w2", address := "BB:BB:CC:DD:EE:20" }
    (by decide) (by decide) (by decide) (by decide) (by decide)

/-- Witness for C4 (amended) at a two-survivor working set. -/
theorem c4_dedup_emission_order_witness :
    dedupSortKey { emptyDevice with id := "w2", rssi := some (-60) }
      ≤ dedupSortKey { emptyDevice with id := "w1", rssi := some (-40) } :=
  c4_dedup_emission_order
    [("w1", { emptyDevice with id := "w1", rssi := some (-40) }),
     ("w2", { emptyDevice with id := "w2", rssi := some (-60) })]
    (by decide) "w1" "w2"
    { emptyDevice with id := "w1", rssi := some (-40) }
    { emptyDevice with id := "w2", rssi := some (-60) }
    (by decide) (by decide) (by decide)

/-- Witness for C7 (amended): three distinct-id records covering one
address stay three separate records. -/
theorem c7_distinct_ids_no_merge_witness :
    scan_for_devices_parallel
      [.ok [{ emptyDevice with id := "i1", address := "CC:DD:EE:FF:00:11" }],
       .ok [{ emptyDevice with id := "i2", address := "CC:DD:EE:FF:00:11" }],
       .ok [{ emptyDevice with id := "i3", address := "CC:DD:EE:FF:00:11" }]] false
      = [{ emptyDevice with id := "i1", address := "CC:DD:EE:FF:00:11" },
         { emptyDevice with id := "i2", address := "CC:DD:EE:FF:00:11" },
         { emptyDevice with id := "i3", address := "CC:DD:EE:FF:00:11" }] :=
  c7_distinct_ids_no_merge _ _ _ (by decide) (by decide) (by decide) ⟨rfl, rfl⟩
